import Mathlib

/-!
Verification of the gamepass proxy server (`src/index.js`, `src/unnamed/part_000`,
`src/unnamed/part_001`) against its natural-language specification.

The JavaScript code is shallowly embedded: JSON values become the `Json`
inductive, JavaScript truthiness and numeric coercion become explicit
Boolean functions, upstream HTTP traffic becomes explicit data passed to
the endpoint functions, and each Express handler becomes a pure function
returning its reply together with the number of upstream calls it made.
-/

/-- JSON values, as delivered by the upstream API after parsing.
Numbers are modelled as integers (all counts and ids in play are integral). -/
inductive Json where
  | null
  | bool (b : Bool)
  | num  (n : Int)
  | str  (s : String)
  | arr  (xs : List Json)
  | obj  (fields : List (String × Json))
deriving Repr

/-- JavaScript truthiness of a value: `null`, `false`, `0` and `""` are falsy;
every array and object (even empty) is truthy. -/
def truthy : Json → Bool
  | .null => false
  | .bool b => b
  | .num n => n != 0
  | .str s => s != ""
  | .arr _ => true
  | .obj _ => true

/-- Property access `body.k`: on an object, the (first) binding for `k`;
on any other non-null value, JavaScript yields `undefined`, modelled as
`none`.  (Access on `null` throws; call sites handle `null` explicitly.) -/
def getField : Json → String → Option Json
  | .obj fs, k => (fs.find? (fun p => p.1 == k)).map (fun p => p.2)
  | _, _ => none

/-- Truthiness of a possibly-`undefined` value (`undefined` is falsy). -/
def truthyO : Option Json → Bool
  | none => false
  | some j => truthy j

/-- `Array.isArray(v)` guard combined with extraction of the elements. -/
def asArr : Option Json → Option (List Json)
  | some (.arr xs) => some xs
  | _ => none

/-- Spreading a value into `results.push(...)`: arrays spread to their
elements, strings to their characters; spreading any other value throws a
TypeError, modelled as `none`. -/
def spreadElems : Json → Option (List Json)
  | .arr xs => some xs
  | .str s => some (s.toList.map (fun c => Json.str c.toString))
  | _ => none

/-- Item extraction of the primary created-gamepasses handler
(src/index.js lines 264-276):
`if (Array.isArray(body.data)) results.push(...body.data);
 else if (Array.isArray(body)) results.push(...body);
 else if (body.gamePasses) results.push(...body.gamePasses);
 else if (body.items) results.push(...body.items);`
`none` models a thrown TypeError (property access on a null body, or
spreading a truthy non-iterable). -/
def extractItems1 (body : Json) : Option (List Json) :=
  match body with
  | .null => none
  | _ =>
    match asArr (getField body "data") with
    | some xs => some xs
    | none =>
      match body with
      | .arr xs => some xs
      | _ =>
        if truthyO (getField body "gamePasses") then
          spreadElems ((getField body "gamePasses").getD .null)
        else if truthyO (getField body "items") then
          spreadElems ((getField body "items").getD .null)
        else some []

/-- Item extraction of the second created-gamepasses variant
(src/index.js lines 396-398): only `Array.isArray` guarded fields
`data`, `gamePasses`, `items`, in that order; no top-level-array case. -/
def extractItems2 (body : Json) : Option (List Json) :=
  match body with
  | .null => none
  | _ =>
    match asArr (getField body "data") with
    | some xs => some xs
    | none =>
      match asArr (getField body "gamePasses") with
      | some xs => some xs
      | none =>
        match asArr (getField body "items") with
        | some xs => some xs
        | none => some []

/-- The `body.meta && body.meta.nextExclusiveStartId` inner access
(evaluated by the code only when `body.meta` is truthy, so never on null). -/
def metaNext (body : Json) : Option Json :=
  getField ((getField body "meta").getD .null) "nextExclusiveStartId"

/-- Cursor extraction shared by both created-gamepasses variants
(src/index.js lines 279 and 400-403):
`body.nextExclusiveStartId || body.nextCursor ||
 (body.meta && body.meta.nextExclusiveStartId) || null`,
followed by `if (!nextId) break`.  `none` models a falsy overall result. -/
def getNextId (body : Json) : Option Json :=
  if truthyO (getField body "nextExclusiveStartId") then
    getField body "nextExclusiveStartId"
  else if truthyO (getField body "nextCursor") then
    getField body "nextCursor"
  else if truthyO (getField body "meta") then
    if truthyO (metaNext body) then metaNext body else none
  else none

example : extractItems1 (.obj [("data", .arr [.num 1])]) = some [.num 1] := by rfl
example : extractItems1 (.arr [.num 2]) = some [.num 2] := by rfl
example : extractItems1 (.obj [("gamePasses", .num 5)]) = none := by rfl
example : extractItems1 (.obj [("other", .num 5)]) = some [] := by rfl
example : extractItems2 (.arr [.num 2]) = some [] := by rfl
example : getNextId (.obj [("nextCursor", .str "c")]) = some (.str "c") := by rfl
example : getNextId (.obj [("nextExclusiveStartId", .str "")]) = none := by rfl
example : getNextId (.obj [("meta", .obj [("nextExclusiveStartId", .num 7)])])
    = some (.num 7) := by rfl

/-! ### JavaScript numeric string coercion

Models of the JavaScript builtins the handlers use on strings:
`isNaN(s)` (ToNumber on a string), `parseInt(s, 10)`, and the comparison
`v > 0` used by the ownership fallback branch. -/

/-- A whitespace character, as stripped by the string-to-number coercion
and by `parseInt` (space, tab, newline, carriage return, form feed,
vertical tab). -/
def isJsWs (c : Char) : Bool :=
  c == ' ' || c == '\t' || c == '\n' || c == '\r' || c == '\x0b' || c == '\x0c'

/-- Strip leading and trailing whitespace from a character list. -/
def jsTrim (l : List Char) : List Char :=
  ((l.dropWhile isJsWs).reverse.dropWhile isJsWs).reverse

/-- Split a character list at the first character satisfying `p`; the
second component is `none` when no such character occurs. -/
def breakAt (p : Char → Bool) : List Char → List Char × Option (List Char)
  | [] => ([], none)
  | c :: cs =>
    if p c then ([], some cs)
    else
      let r := breakAt p cs
      (c :: r.1, r.2)

/-- A non-empty run of decimal digits. -/
def decDigits (l : List Char) : Bool :=
  !l.isEmpty && l.all Char.isDigit

/-- The mantissa of a decimal literal: `D+`, `D+.D*`, or `.D+`. -/
def mantissaOk (l : List Char) : Bool :=
  match breakAt (fun c => c == '.') l with
  | (a, none) => decDigits a
  | (a, some b) => (decDigits a && b.all Char.isDigit) || (a.isEmpty && decDigits b)

/-- The exponent of a decimal literal, after the `e`: optional sign then digits. -/
def expPart : List Char → Bool
  | '+' :: cs => decDigits cs
  | '-' :: cs => decDigits cs
  | cs => decDigits cs

/-- An unsigned decimal numeric literal (or `Infinity`), as accepted by
the string-to-number coercion. -/
def decFormOk (l : List Char) : Bool :=
  if l = "Infinity".toList then true
  else
    match breakAt (fun c => c == 'e' || c == 'E') l with
    | (m, none) => mantissaOk m
    | (m, some ex) => mantissaOk m && expPart ex

/-- A hexadecimal digit. -/
def hexDigitC (c : Char) : Bool :=
  c.isDigit || ('a' ≤ c && c ≤ 'f') || ('A' ≤ c && c ≤ 'F')

/-- An octal digit. -/
def octDigitC (c : Char) : Bool := '0' ≤ c && c ≤ '7'

/-- A binary digit. -/
def binDigitC (c : Char) : Bool := c == '0' || c == '1'

/-- Whether the string coerces to a number (not NaN) under the JavaScript
ToNumber rules for strings: trimmed; empty is 0; otherwise an optionally
signed decimal literal or `Infinity`, or an unsigned `0x`/`0o`/`0b`
radix literal. -/
def jsStrIsNumber (s : String) : Bool :=
  match jsTrim s.toList with
  | [] => true
  | '0' :: 'x' :: cs => !cs.isEmpty && cs.all hexDigitC
  | '0' :: 'X' :: cs => !cs.isEmpty && cs.all hexDigitC
  | '0' :: 'o' :: cs => !cs.isEmpty && cs.all octDigitC
  | '0' :: 'O' :: cs => !cs.isEmpty && cs.all octDigitC
  | '0' :: 'b' :: cs => !cs.isEmpty && cs.all binDigitC
  | '0' :: 'B' :: cs => !cs.isEmpty && cs.all binDigitC
  | '+' :: cs => decFormOk cs
  | '-' :: cs => decFormOk cs
  | l => decFormOk l

/-- The JavaScript `isNaN(s)` applied to a string. -/
def jsIsNaN (s : String) : Bool := !jsStrIsNumber s

/-- The mantissa denotes a nonzero value (some digit other than 0). -/
def mantissaPos (l : List Char) : Bool :=
  l.any (fun c => c.isDigit && c != '0')

/-- An unsigned decimal literal (or `Infinity`) whose value is
strictly positive. -/
def decFormPos (l : List Char) : Bool :=
  if l = "Infinity".toList then true
  else
    match breakAt (fun c => c == 'e' || c == 'E') l with
    | (m, none) => mantissaOk m && mantissaPos m
    | (m, some ex) => mantissaOk m && expPart ex && mantissaPos m

/-- The JavaScript comparison `s > 0` for a string `s`: true exactly when
the string coerces to a number strictly greater than zero. -/
def jsStrGtZero (s : String) : Bool :=
  match jsTrim s.toList with
  | [] => false
  | '0' :: 'x' :: cs => (!cs.isEmpty && cs.all hexDigitC) && cs.any (fun c => c != '0')
  | '0' :: 'X' :: cs => (!cs.isEmpty && cs.all hexDigitC) && cs.any (fun c => c != '0')
  | '0' :: 'o' :: cs => (!cs.isEmpty && cs.all octDigitC) && cs.any (fun c => c != '0')
  | '0' :: 'O' :: cs => (!cs.isEmpty && cs.all octDigitC) && cs.any (fun c => c != '0')
  | '0' :: 'b' :: cs => (!cs.isEmpty && cs.all binDigitC) && cs.any (fun c => c != '0')
  | '0' :: 'B' :: cs => (!cs.isEmpty && cs.all binDigitC) && cs.any (fun c => c != '0')
  | '+' :: cs => decFormPos cs
  | '-' :: _ => false
  | l => decFormPos l

/-- The JavaScript comparison `v > 0` for an arbitrary value, via
ToPrimitive/ToNumber: numbers compare directly, strings through the
string coercion, `true` is 1, `null` is 0, objects coerce to NaN, and a
one-element array coerces through its element's string form (a Boolean
element stringifies to a non-numeric word, hence NaN). -/
def jsGtZero : Json → Bool
  | .num n => decide (0 < n)
  | .str s => jsStrGtZero s
  | .bool b => b
  | .null => false
  | .arr [.bool _] => false
  | .arr [x] => jsGtZero x
  | .arr _ => false
  | .obj _ => false

/-- The validation regex `^\d+$` used by the created-gamepasses and owns
routes (src/index.js lines 250 and 303). -/
def isNumericStr (s : String) : Bool :=
  s != "" && s.toList.all Char.isDigit

/-- Truthiness of a possibly-absent query/environment string
(`undefined` and the empty string are falsy). -/
def truthyS : Option String → Bool
  | none => false
  | some s => s != ""

/-- The JavaScript `parseInt(s, 10)`: trim, optional sign, then the
longest prefix of decimal digits; `none` models NaN (no digits). -/
def digitsPrefixVal (l : List Char) : Option Nat :=
  let ds := l.takeWhile Char.isDigit
  if ds.isEmpty then none
  else some (ds.foldl (fun a c => a * 10 + (c.toNat - 48)) 0)

/-- See `digitsPrefixVal`; `parseInt(s, 10)` with sign handling. -/
def jsParseInt (s : String) : Option Int :=
  match jsTrim s.toList with
  | '+' :: cs => (digitsPrefixVal cs).map Int.ofNat
  | '-' :: cs => (digitsPrefixVal cs).map (fun n => -(n : Int))
  | l => (digitsPrefixVal l).map Int.ofNat

example : jsIsNaN "abc" = true := by decide
example : jsIsNaN "12.5" = false := by decide
example : jsIsNaN "123" = false := by decide
example : jsIsNaN "" = false := by decide
example : jsIsNaN "0x1F" = false := by decide
example : jsIsNaN "1e3" = false := by decide
example : jsIsNaN "12a" = true := by decide
example : jsStrGtZero "5" = true := by decide
example : jsStrGtZero "0" = false := by decide
example : jsStrGtZero "-3" = false := by decide
example : isNumericStr "12.5" = false := by decide
example : isNumericStr "123" = true := by decide
example : jsParseInt "12.5" = some 12 := by decide

/-! ### Upstream call results and the pagination loop -/

/-- Result of one `axios.get` call: a 2xx response with a parsed JSON
body, a thrown error carrying an upstream response (`err.response.status`,
`err.response.data`, plus `err.message`), or a thrown network-level error
carrying only a message. -/
inductive UpResult where
  | ok (body : Json)
  | httpErr (status : Nat) (data : Json) (msg : String)
  | netErr (msg : String)

/-- The status sent by the created-gamepasses and owns catch blocks:
`err?.response?.status || 500` (src/index.js lines 289 and 333). -/
def failStatus : UpResult → Nat
  | .httpErr s _ _ => if s = 0 then 500 else s
  | _ => 500

/-- The error payload sent by those catch blocks:
`err?.response?.data || err.message || "request failed"`
(src/index.js lines 290 and 334). -/
def failBody : UpResult → Json
  | .httpErr _ d m => if truthy d then d else if m != "" then .str m else .str "request failed"
  | .netErr m => if m != "" then .str m else .str "request failed"
  | .ok _ => .str "request failed"

/-- The `while (pages < safetyPages)` loop of the created-gamepasses
handler (src/index.js lines 259-283), with `fuel = safetyPages - pages`.
`up k` is the upstream response to the k-th request issued; `extract` is
the item extraction of the variant under study.  Returns the loop outcome
(accumulated results, or the error the catch block receives) together
with the number of upstream calls performed.  A `none` from `extract`
models the thrown TypeError, caught with no `err.response` attached. -/
def paginateGo (extract : Json → Option (List Json)) (up : Nat → UpResult) :
    Nat → Nat → List Json → (Except (Nat × Json) (List Json)) × Nat
  | _, 0, acc => (.ok acc, 0)
  | idx, fuel + 1, acc =>
    match up idx with
    | .ok body =>
      match extract body with
      | none => (.error (500, .str "TypeError"), 1)
      | some items =>
        match getNextId body with
        | none => (.ok (acc ++ items), 1)
        | some _ =>
          let r := paginateGo extract up (idx + 1) fuel (acc ++ items)
          (r.1, r.2 + 1)
    | e => (.error (failStatus e, failBody e), 1)

/-- Replies of the created-gamepasses route, as serialized JSON envelopes:
400 for a non-numeric userId, `ok:true` with `count` and `results` on
success, and the catch-block failure otherwise. -/
inductive ListReply where
  | badInput
  | okResults (count : Nat) (results : List Json)
  | failure (status : Nat) (error : Json)

/-- The `GET /api/created-gamepasses/:userId` handler (src/index.js
lines 247-292): numeric validation, then the pagination loop with
`safetyPages = 50` starting from an empty cursor and empty results.
The second component is the number of upstream calls made. -/
def createdGamepasses (extract : Json → Option (List Json)) (userId : String)
    (up : Nat → UpResult) : ListReply × Nat :=
  if isNumericStr userId then
    match paginateGo extract up 0 50 [] with
    | (.ok rs, c) => (.okResults rs.length rs, c)
    | (.error (s, e), c) => (.failure s e, c)
  else (.badInput, 0)

example :
    createdGamepasses extractItems1 "abc" (fun _ => .ok .null) = (.badInput, 0) := by rfl
example :
    createdGamepasses extractItems1 "7"
      (fun _ => .ok (.obj [("data", .arr [.num 1])]))
      = (.okResults 1 [.num 1], 1) := by rfl
example :
    createdGamepasses extractItems1 "7"
      (fun _ => .httpErr 429 (.str "rate") "m")
      = (.failure 429 (.str "rate"), 1) := by rfl

/-! ### The ownership endpoints -/

/-- Replies of the `GET /api/owns/:userId/:gamePassId` route
(src/index.js lines 300-336), one constructor per `res.json` call site:
the `data`-array verdict, the count-fallback verdict, the unknown
verdict, the 404-means-not-owned verdict, the forwarded failure, and the
400 validation reply. -/
inductive OwnsReply where
  | ownsData (owns : Bool) (raw : Json)
  | ownsCount (owns : Bool) (count : Json) (raw : Json)
  | unknownVerdict (raw : Json)
  | notFoundFalse
  | failure (status : Nat) (error : Json)
  | badInput

/-- The fallback count `body.totalCount || body.total || body.count`
(src/index.js lines 320-321): the first truthy field value, else `none`
(the whole condition is falsy). -/
def countField (body : Json) : Option Json :=
  if truthyO (getField body "totalCount") then getField body "totalCount"
  else if truthyO (getField body "total") then getField body "total"
  else if truthyO (getField body "count") then getField body "count"
  else none

/-- Interpretation of a 2xx inventory response body (src/index.js
lines 311-326): a `data` array decides by emptiness; else a truthy
count field decides by `count > 0`; else the unknown verdict with the
raw body. -/
def interpretOwns (body : Json) : OwnsReply :=
  if truthy body then
    match asArr (getField body "data") with
    | some xs => .ownsData (decide (xs.length > 0)) body
    | none =>
      match countField body with
      | some v => .ownsCount (jsGtZero v) v body
      | none => .unknownVerdict body
  else .unknownVerdict body

/-- The `GET /api/owns/:userId/:gamePassId` handler (src/index.js
lines 300-336): regex validation of both path parameters, one upstream
inventory call, interpretation of a 2xx body, the special 404 case, and
forwarding of other failures.  The second component is the number of
upstream calls made. -/
def ownsEndpoint (userId gamePassId : String) (up : UpResult) : OwnsReply × Nat :=
  if isNumericStr userId && isNumericStr gamePassId then
    match up with
    | .ok body => (interpretOwns body, 1)
    | .httpErr s d m =>
      if s = 404 then (.notFoundFalse, 1)
      else (.failure (failStatus (.httpErr s d m)) (failBody (.httpErr s d m)), 1)
    | .netErr m => (.failure (failStatus (.netErr m)) (failBody (.netErr m)), 1)
  else (.badInput, 0)

example :
    ownsEndpoint "1" "2" (.ok (.obj [("data", .arr [])]))
      = (.ownsData false (.obj [("data", .arr [])]), 1) := by rfl
example :
    ownsEndpoint "1" "2" (.ok (.obj [("data", .arr [.obj []])]))
      = (.ownsData true (.obj [("data", .arr [.obj []])]), 1) := by rfl
example :
    ownsEndpoint "1" "2" (.ok (.obj [("totalCount", .num 0)]))
      = (.unknownVerdict (.obj [("totalCount", .num 0)]), 1) := by rfl
example :
    ownsEndpoint "1" "2" (.ok (.obj [("total", .num 3)]))
      = (.ownsCount true (.num 3) (.obj [("total", .num 3)]), 1) := by rfl
example : ownsEndpoint "1" "2" (.httpErr 404 .null "") = (.notFoundFalse, 1) := by rfl
example : ownsEndpoint "1" "x" (.ok .null) = (.badInput, 0) := by rfl

/-! ### The check-ownership, list-gamepasses and proxy endpoints -/

/-- Result of one `fetch` call: a received response (any status) whose
body is read as text, or a thrown error with a message. -/
inductive FetchResult where
  | resp (status : Nat) (text : String)
  | thrown (msg : String)

/-- `response.ok`: status in the 2xx range. -/
def respOk (s : Nat) : Bool := 200 ≤ s && s < 300

/-- The comparison `text.toLowerCase() === 'true'` on the body text. -/
def lowerIsTrue (s : String) : Bool :=
  s.toList.map Char.toLower == "true".toList

/-- Replies of the `GET /api/v1/check-ownership` route, one constructor
per `res` call site. -/
inductive CheckReply where
  | missingParams
  | notNumbers
  | upstreamFail (status : Nat)
  | okOwned (userId gamePassId : Option Int) (isOwned : Bool)
  | serverError (msg : String)

/-- The `GET /api/v1/check-ownership` handler (src/index.js lines 55-112):
presence check (`!userId || !gamePassId`), the `isNaN` validation, one
fetch of the boolean-text is-owned endpoint, forwarding of non-ok
statuses, and the case-insensitive comparison of the body text with
"true".  The second component is the number of upstream calls made. -/
def checkOwnership (userId gamePassId : Option String) (up : FetchResult) :
    CheckReply × Nat :=
  if !truthyS userId || !truthyS gamePassId then (.missingParams, 0)
  else
    let u := userId.getD ""
    let g := gamePassId.getD ""
    if jsIsNaN u || jsIsNaN g then (.notNumbers, 0)
    else
      match up with
      | .resp s text =>
        if respOk s then (.okOwned (jsParseInt u) (jsParseInt g) (lowerIsTrue text), 1)
        else (.upstreamFail s, 1)
      | .thrown m => (.serverError m, 1)

example :
    checkOwnership (some "123") (some "45") (.resp 200 "true")
      = (.okOwned (some 123) (some 45) true, 1) := by rfl
example :
    checkOwnership (some "abc") (some "45") (.resp 200 "true")
      = (.notNumbers, 0) := by rfl
example : checkOwnership none (some "45") (.resp 200 "true") = (.missingParams, 0) := by rfl

/-- Result of one `fetch` call whose success body is parsed as JSON:
a received response carries its status, its raw text (used by the non-ok
branch) and the parse of that text (`none` when `response.json()`
throws); or the fetch itself threw. -/
inductive FetchJ where
  | resp (status : Nat) (text : String) (json : Option Json)
  | thrown (msg : String)

/-- Replies of the `GET /api/v1/list-gamepasses` routes, one constructor
per `res` call site. -/
inductive ListGpReply where
  | missingUniverse
  | invalidUniverse
  | configError
  | upstreamFail (status : Nat) (errorText : String)
  | okData (universeId : Option Int) (data : Json)
  | serverError (msg : String)

/-- The primary `GET /api/v1/list-gamepasses` handler (src/index.js
lines 115-187): presence check, `isNaN` validation, the
`ROBLOX_API_KEY` configuration check (500 with guidance, before any
upstream call), then one key-authenticated fetch; non-ok statuses are
forwarded with the upstream error text.  The second component is the
number of upstream calls made. -/
def listGamepasses1 (universeId : Option String) (apiKey : Option String)
    (up : FetchJ) : ListGpReply × Nat :=
  if !truthyS universeId then (.missingUniverse, 0)
  else if jsIsNaN (universeId.getD "") then (.invalidUniverse, 0)
  else if !truthyS apiKey then (.configError, 0)
  else
    match up with
    | .resp s text json =>
      if respOk s then
        match json with
        | some d => (.okData (jsParseInt (universeId.getD "")) d, 1)
        | none => (.serverError "invalid json", 1)
      else (.upstreamFail s text, 1)
    | .thrown m => (.serverError m, 1)

/-- The `GET /api/v1/list-gamepasses` handler of src/unnamed/part_001
(lines 69-118): presence check only — no `isNaN` validation, no
`ROBLOX_API_KEY` check — then one unauthenticated fetch.  The `apiKey`
argument is accepted to state configuration claims but is never
consulted.  The second component is the number of upstream calls made. -/
def listGamepassesP1 (universeId : Option String) (_apiKey : Option String)
    (up : FetchJ) : ListGpReply × Nat :=
  if !truthyS universeId then (.missingUniverse, 0)
  else
    match up with
    | .resp s text json =>
      if respOk s then
        match json with
        | some d => (.okData (jsParseInt (universeId.getD "")) d, 1)
        | none => (.serverError "invalid json", 1)
      else (.upstreamFail s text, 1)
    | .thrown m => (.serverError m, 1)

example :
    listGamepasses1 (some "9") none (.resp 200 "" (some (.obj [])))
      = (.configError, 0) := by rfl
example :
    listGamepassesP1 (some "9") none (.resp 200 "" (some (.obj [])))
      = (.okData (some 9) (.obj []), 1) := by rfl

/-- Replies of the `GET /proxy` route of src/unnamed/part_000
(lines 12-28), one constructor per `res` call site. -/
inductive ProxyReply where
  | missingUrl
  | forwarded (body : String)
  | fetchFailed (details : String)

/-- The HTTP status the proxy route replies with: 400 for a missing url,
200 (the `res.send` default) for every forwarded body, 500 when the
fetch threw. -/
def proxyStatus : ProxyReply → Nat
  | .missingUrl => 400
  | .forwarded _ => 200
  | .fetchFailed _ => 500

/-- The `GET /proxy` handler (src/unnamed/part_000 lines 12-28): a falsy
`url` query parameter is rejected with 400; otherwise the target is
fetched and the body text is sent back labelled `application/json`
with no inspection of the upstream status.  The second component is the
number of upstream calls made. -/
def proxyEndpoint (url : Option String) (up : FetchResult) : ProxyReply × Nat :=
  if !truthyS url then (.missingUrl, 0)
  else
    match up with
    | .resp _ text => (.forwarded text, 1)
    | .thrown m => (.fetchFailed m, 1)

example : proxyEndpoint (some "http://x") (.resp 503 "oops") = (.forwarded "oops", 1) := by rfl
example : proxyEndpoint (some "") (.resp 200 "x") = (.missingUrl, 0) := by rfl
example : proxyEndpoint none (.resp 200 "x") = (.missingUrl, 0) := by rfl

/-! ### Lemmas about the pagination loop -/

/-- Each run of the loop makes at most `fuel` upstream calls. -/
theorem paginateGo_calls_le (e : Json → Option (List Json)) (up : Nat → UpResult) :
    ∀ (fuel idx : Nat) (acc : List Json), (paginateGo e up idx fuel acc).2 ≤ fuel := by
  intro fuel
  induction fuel with
  | zero => intro idx acc; simp [paginateGo]
  | succ f ih =>
    intro idx acc
    simp only [paginateGo]
    cases hup : up idx with
    | ok body =>
      cases he : e body with
      | none => simp [he]
      | some items =>
        cases hc : getNextId body with
        | none => simp [he, hc]
        | some v =>
          simpa [he, hc] using Nat.succ_le_succ (ih (idx + 1) (acc ++ items))
    | httpErr s d m => simp
    | netErr m => simp

/-- Processing one page that carries a next cursor costs one call and
continues the loop on the remaining fuel. -/
theorem paginateGo_step (e : Json → Option (List Json)) (up : Nat → UpResult)
    (idx fuel : Nat) (acc : List Json) (body : Json) (items : List Json) (v : Json)
    (hup : up idx = .ok body) (he : e body = some items)
    (hc : getNextId body = some v) :
    paginateGo e up idx (fuel + 1) acc =
      ((paginateGo e up (idx + 1) fuel (acc ++ items)).1,
       (paginateGo e up (idx + 1) fuel (acc ++ items)).2 + 1) := by
  simp [paginateGo, hup, he, hc]

/-- A run of pages that all succeed and all carry cursors shifts the loop
past them, accumulating their items in order and adding their count to
the number of calls. -/
theorem paginateGo_skipPages (e : Json → Option (List Json)) (up : Nat → UpResult) :
    ∀ (bs : List Json) (idx fuel : Nat) (acc : List Json),
    (∀ i, i < bs.length → up (idx + i) = .ok (bs.getD i .null)) →
    (∀ i, i < bs.length → (getNextId (bs.getD i .null)).isSome = true) →
    (∀ i, i < bs.length → (e (bs.getD i .null)).isSome = true) →
    paginateGo e up idx (bs.length + fuel) acc =
      ((paginateGo e up (idx + bs.length) fuel
          (acc ++ (bs.map (fun b => (e b).getD [])).flatten)).1,
       (paginateGo e up (idx + bs.length) fuel
          (acc ++ (bs.map (fun b => (e b).getD [])).flatten)).2 + bs.length) := by
  intro bs
  induction bs with
  | nil => intro idx fuel acc _ _ _; simp
  | cons b bs ih =>
    intro idx fuel acc hup hcur hex
    have hub : up idx = .ok b := by simpa using hup 0 (by simp)
    have hcb : (getNextId b).isSome = true := by simpa using hcur 0 (by simp)
    have heb : (e b).isSome = true := by simpa using hex 0 (by simp)
    obtain ⟨v, hv⟩ := Option.isSome_iff_exists.mp hcb
    obtain ⟨items, hi⟩ := Option.isSome_iff_exists.mp heb
    have hlen : (b :: bs).length + fuel = (bs.length + fuel) + 1 := by
      simp [List.length_cons, Nat.add_right_comm]
    rw [hlen, paginateGo_step e up idx (bs.length + fuel) acc b items v hub hi hv]
    have ih' := ih (idx + 1) fuel (acc ++ items)
      (fun i h => by simpa [Nat.add_assoc, Nat.add_comm 1 i] using hup (i + 1) (by simpa using Nat.succ_lt_succ h))
      (fun i h => by simpa using hcur (i + 1) (by simpa using Nat.succ_lt_succ h))
      (fun i h => by simpa using hex (i + 1) (by simpa using Nat.succ_lt_succ h))
    rw [ih']
    have hacc : acc ++ items ++ (bs.map (fun b => (e b).getD [])).flatten
        = acc ++ ((b :: bs).map (fun b => (e b).getD [])).flatten := by
      simp [hi, List.append_assoc]
    have hidx : idx + 1 + bs.length = idx + (b :: bs).length := by
      simp [List.length_cons, Nat.add_assoc, Nat.add_comm 1 bs.length]
    rw [hacc, hidx]
    simp [List.length_cons, Nat.add_assoc, Nat.add_comm 1 bs.length]

/-- C1: for every numeric userId and every upstream behaviour, including
one that returns a next cursor on every page, the created-gamepasses
handler terminates (it is a total function) after at most 50 upstream
calls. -/
theorem created_gamepasses_call_bound (userId : String) (up : Nat → UpResult)
    (h : isNumericStr userId = true) :
    (createdGamepasses extractItems1 userId up).2 ≤ 50 := by
  have hb := paginateGo_calls_le extractItems1 up 50 0 []
  unfold createdGamepasses
  rw [h]
  rcases hp : paginateGo extractItems1 up 0 50 [] with ⟨r, c⟩
  rw [hp] at hb
  cases r with
  | ok rs => simpa using hb
  | error ee => rcases ee with ⟨s, eb⟩; simpa using hb

/-- An upstream that returns a next cursor on every page. -/
def upAlwaysCursor : Nat → UpResult :=
  fun _ => .ok (.obj [("data", .arr []), ("nextCursor", .str "c")])

/-- Witness for C1 at a concrete numeric userId against the
always-cursor upstream. -/
theorem created_gamepasses_call_bound_witness :
    isNumericStr "123" = true ∧
      (createdGamepasses extractItems1 "123" upAlwaysCursor).2 ≤ 50 :=
  ⟨by decide, created_gamepasses_call_bound "123" upAlwaysCursor (by decide)⟩

/-- A run whose pages all succeed, where every page except the last
carries a cursor and the last does not, ends the loop with the ordered
concatenation of all pages and one call per page, provided the fuel
suffices. -/
theorem paginateGo_fullRun (e : Json → Option (List Json)) (up : Nat → UpResult) :
    ∀ (bs : List Json) (idx fuel : Nat) (acc : List Json),
    bs ≠ [] → bs.length ≤ fuel →
    (∀ i, i < bs.length → up (idx + i) = .ok (bs.getD i .null)) →
    (∀ i, i + 1 < bs.length → (getNextId (bs.getD i .null)).isSome = true) →
    getNextId (bs.getD (bs.length - 1) .null) = none →
    (∀ i, i < bs.length → (e (bs.getD i .null)).isSome = true) →
    paginateGo e up idx fuel acc =
      (.ok (acc ++ (bs.map (fun b => (e b).getD [])).flatten), bs.length) := by
  intro bs
  induction bs with
  | nil => intro idx fuel acc hne; exact absurd rfl hne
  | cons b bs ih =>
    intro idx fuel acc _ hlen hup hcur hlast hex
    have hub : up idx = .ok b := by simpa using hup 0 (by simp)
    have heb : (e b).isSome = true := by simpa using hex 0 (by simp)
    obtain ⟨items, hi⟩ := Option.isSome_iff_exists.mp heb
    cases bs with
    | nil =>
      cases fuel with
      | zero => simp at hlen
      | succ f =>
        have hnb : getNextId b = none := by simpa using hlast
        simp [paginateGo, hub, hi, hnb]
    | cons b' bs' =>
      have hcb : (getNextId b).isSome = true := by
        simpa using hcur 0 (by simp)
      obtain ⟨v, hv⟩ := Option.isSome_iff_exists.mp hcb
      cases fuel with
      | zero => simp at hlen
      | succ f =>
        rw [paginateGo_step e up idx f acc b items v hub hi hv]
        have hlen' : (b' :: bs').length ≤ f := by
          simpa [Nat.succ_le_succ_iff] using hlen
        have ih' := ih (idx + 1) f (acc ++ items) (by simp) hlen'
          (fun i h => by
            simpa [Nat.add_assoc, Nat.add_comm 1 i] using hup (i + 1) (by simpa using Nat.succ_lt_succ h))
          (fun i h => by simpa using hcur (i + 1) (by simpa using Nat.succ_lt_succ h))
          (by simpa using hlast)
          (fun i h => by simpa using hex (i + 1) (by simpa using Nat.succ_lt_succ h))
        rw [ih']
        simp [hi, List.append_assoc]

/-- C5 (amended): in a run of N pages, N at most 50, whose pages all
yield item lists, where pages 1..N-1 carry cursors and page N does not,
the handler replies with exactly the concatenation of the pages' item
lists in request order (no deduplication) after exactly N upstream
calls. -/
theorem pagination_concat_pages (userId : String) (up : Nat → UpResult)
    (bs : List Json)
    (hu : isNumericStr userId = true)
    (hne : bs ≠ []) (hlen : bs.length ≤ 50)
    (hup : ∀ i, i < bs.length → up i = .ok (bs.getD i .null))
    (hcur : ∀ i, i + 1 < bs.length → (getNextId (bs.getD i .null)).isSome = true)
    (hlast : getNextId (bs.getD (bs.length - 1) .null) = none)
    (hex : ∀ i, i < bs.length → (extractItems1 (bs.getD i .null)).isSome = true) :
    createdGamepasses extractItems1 userId up =
      (.okResults ((bs.map (fun b => (extractItems1 b).getD [])).flatten).length
        ((bs.map (fun b => (extractItems1 b).getD [])).flatten), bs.length) := by
  have hrun := paginateGo_fullRun extractItems1 up bs 0 50 [] hne hlen
    (fun i h => by simpa using hup i h) hcur hlast hex
  simp [createdGamepasses, hu, hrun]

/-- The three-page upstream used to witness C5: two pages with cursors
(the second repeating an item of the first), then a cursorless page. -/
def upThreePages : Nat → UpResult := fun i =>
  [UpResult.ok (.obj [("data", .arr [.num 1]), ("nextCursor", .str "a")]),
   UpResult.ok (.obj [("data", .arr [.num 1, .num 2]), ("nextCursor", .str "b")]),
   UpResult.ok (.obj [("data", .arr [.num 3])])].getD i (.netErr "out of range")

/-- The bodies of the three pages served by `upThreePages`. -/
def threePageBodies : List Json :=
  [.obj [("data", .arr [.num 1]), ("nextCursor", .str "a")],
   .obj [("data", .arr [.num 1, .num 2]), ("nextCursor", .str "b")],
   .obj [("data", .arr [.num 3])]]

/-- Witness for C5 on the concrete three-page run, with a duplicate item
propagated undeduplicated. -/
theorem pagination_concat_pages_witness :
    createdGamepasses extractItems1 "8" upThreePages =
      (.okResults
        ((threePageBodies.map (fun b => (extractItems1 b).getD [])).flatten).length
        ((threePageBodies.map (fun b => (extractItems1 b).getD [])).flatten), 3) :=
  pagination_concat_pages "8" upThreePages threePageBodies (by decide)
    (by simp [threePageBodies]) (by decide)
    (by intro i hi; simp [threePageBodies] at hi; interval_cases i <;> rfl)
    (by intro i hi; simp [threePageBodies] at hi
        have hi2 : i < 2 := by omega
        interval_cases i <;> rfl)
    (by rfl)
    (by intro i hi; simp [threePageBodies] at hi; interval_cases i <;> rfl)

/-- The 51-page upstream refuting C5 as stated: pages 1..50 each carry a
cursor and no items, page 51 has items and no cursor. -/
def upCapped : Nat → UpResult := fun i =>
  if i < 50 then .ok (.obj [("data", .arr []), ("nextCursor", .str "c")])
  else .ok (.obj [("data", .arr [.str "p51"])])

/-- Counterexample to C5 as stated: with 51 pages, page 51 being the
first page without a next cursor and carrying item "p51", the handler
stops at the 50-page safety cap — it makes 50 calls, not 51, and its
result omits page 51's item instead of being the concatenation of pages
1..51. -/
theorem pagination_cap_misses_page51 :
    createdGamepasses extractItems1 "1" upCapped = (.okResults 0 [], 50) ∧
    getNextId (.obj [("data", .arr [.str "p51"])]) = none ∧
    extractItems1 (.obj [("data", .arr [.str "p51"])]) = some [.str "p51"] :=
  ⟨by rfl, by rfl, by rfl⟩

/-- C4: if the first k pages succeed with cursors and the (k+1)-th
upstream call fails, the handler replies with a single failure — the
upstream status and body when the thrown error carries a response with a
truthy body, else the generic 500 with the error message — after k+1
calls; the k pages of items already accumulated are discarded (the
failure reply carries no results). -/
theorem pagination_failure_atomic (userId : String) (up : Nat → UpResult)
    (bs : List Json) (s : Nat) (d : Json) (m : String)
    (hu : isNumericStr userId = true)
    (hk : bs.length < 50)
    (hup : ∀ i, i < bs.length → up i = .ok (bs.getD i .null))
    (hcur : ∀ i, i < bs.length → (getNextId (bs.getD i .null)).isSome = true)
    (hex : ∀ i, i < bs.length → (extractItems1 (bs.getD i .null)).isSome = true) :
    (up bs.length = .httpErr s d m → s ≠ 0 → truthy d = true →
      createdGamepasses extractItems1 userId up = (.failure s d, bs.length + 1)) ∧
    (up bs.length = .netErr m → m ≠ "" →
      createdGamepasses extractItems1 userId up = (.failure 500 (.str m), bs.length + 1)) := by
  have hskip := paginateGo_skipPages extractItems1 up bs 0 (50 - bs.length) []
    (fun i h => by simpa using hup i h) hcur hex
  have h50 : bs.length + (50 - bs.length) = 50 := by omega
  rw [h50] at hskip
  have hfuel : 50 - bs.length = (50 - bs.length - 1) + 1 := by omega
  constructor
  · intro hfail hs hd
    have hone : paginateGo extractItems1 up (0 + bs.length) (50 - bs.length)
          ([] ++ (bs.map (fun b => (extractItems1 b).getD [])).flatten)
        = (.error (s, d), 1) := by
      rw [hfuel]
      simp only [paginateGo, Nat.zero_add, hfail]
      simp [failStatus, failBody, hs, hd]
    rw [hone] at hskip
    simp [createdGamepasses, hu, hskip, Nat.add_comm]
  · intro hfail hm
    have hone : paginateGo extractItems1 up (0 + bs.length) (50 - bs.length)
          ([] ++ (bs.map (fun b => (extractItems1 b).getD [])).flatten)
        = (.error (500, .str m), 1) := by
      rw [hfuel]
      simp only [paginateGo, Nat.zero_add, hfail]
      simp [failStatus, failBody, hm]
    rw [hone] at hskip
    simp [createdGamepasses, hu, hskip, Nat.add_comm]

/-- The upstream used to witness C4: two good pages with cursors, then a
rate-limit failure on the third call. -/
def upFailsThird : Nat → UpResult := fun i =>
  [UpResult.ok (.obj [("data", .arr [.num 1]), ("nextCursor", .str "a")]),
   UpResult.ok (.obj [("data", .arr [.num 2]), ("nextCursor", .str "b")])].getD i
    (.httpErr 429 (.str "too many requests") "Request failed with status code 429")

/-- Witness for C4: two accumulated pages are discarded when the third
call fails with upstream status 429 and a body. -/
theorem pagination_failure_atomic_witness :
    createdGamepasses extractItems1 "5" upFailsThird
      = (.failure 429 (.str "too many requests"), 3) :=
  (pagination_failure_atomic "5" upFailsThird
      [.obj [("data", .arr [.num 1]), ("nextCursor", .str "a")],
       .obj [("data", .arr [.num 2]), ("nextCursor", .str "b")]]
      429 (.str "too many requests") "Request failed with status code 429"
      (by decide) (by decide)
      (by intro i hi; simp at hi; interval_cases i <;> rfl)
      (by intro i hi; simp at hi; interval_cases i <;> rfl)
      (by intro i hi; simp at hi; interval_cases i <;> rfl)).1
    (by rfl) (by decide) (by decide)

/-- C6: the next-page cursor is the first truthy value among
`nextExclusiveStartId`, `nextCursor` and `meta.nextExclusiveStartId`, in
that order; when all are absent or falsy the cursor is absent and the
loop replies with the accumulated items after the current page, making
no further call. -/
theorem cursor_extraction_priority (b : Json) :
    (truthyO (getField b "nextExclusiveStartId") = true →
      getNextId b = getField b "nextExclusiveStartId") ∧
    (truthyO (getField b "nextExclusiveStartId") = false →
      truthyO (getField b "nextCursor") = true →
      getNextId b = getField b "nextCursor") ∧
    (truthyO (getField b "nextExclusiveStartId") = false →
      truthyO (getField b "nextCursor") = false →
      truthyO (getField b "meta") = true → truthyO (metaNext b) = true →
      getNextId b = metaNext b) ∧
    (truthyO (getField b "nextExclusiveStartId") = false →
      truthyO (getField b "nextCursor") = false →
      (truthyO (getField b "meta") = false ∨ truthyO (metaNext b) = false) →
      getNextId b = none) ∧
    (∀ (e : Json → Option (List Json)) (up : Nat → UpResult)
        (idx fuel : Nat) (acc items : List Json),
      up idx = .ok b → e b = some items → getNextId b = none →
      paginateGo e up idx (fuel + 1) acc = (.ok (acc ++ items), 1)) := by
  refine ⟨?_, ?_, ?_, ?_, ?_⟩
  · intro h1; simp [getNextId, h1]
  · intro h1 h2; simp [getNextId, h1, h2]
  · intro h1 h2 h3 h4; simp [getNextId, h1, h2, h3, h4]
  · intro h1 h2 h3
    rcases h3 with h3 | h3 <;> simp [getNextId, h1, h2, h3]
  · intro e up idx fuel acc items hup he hn
    simp [paginateGo, hup, he, hn]

/-- Witness for C6: with `nextExclusiveStartId` falsy (empty) and
`nextCursor` set, the second field wins. -/
theorem cursor_extraction_priority_witness :
    getNextId (Json.obj [("nextExclusiveStartId", Json.str ""), ("nextCursor", Json.str "k")])
      = getField (Json.obj [("nextExclusiveStartId", Json.str ""), ("nextCursor", Json.str "k")])
          "nextCursor" :=
  (cursor_extraction_priority _).2.1 (by rfl) (by rfl)

/-- C3 (amended): the primary normalizer tries, in order, a `data` list,
the top-level value being a list, a truthy `gamePasses` field, then a
truthy `items` field, the first match winning and no match yielding the
empty list — but it is not error-free: a null body, or a truthy
`gamePasses`/`items` value that is not spreadable, throws.  The second
variant consults only `data`/`gamePasses`/`items` arrays (a top-level
array yields the empty list) and throws only on a null body. -/
theorem normalizer_priority (body : Json) :
    (∀ xs, getField body "data" = some (.arr xs) → extractItems1 body = some xs) ∧
    (∀ xs, body = .arr xs → extractItems1 body = some xs) ∧
    (body ≠ .null → asArr (getField body "data") = none → (∀ xs, body ≠ .arr xs) →
      truthyO (getField body "gamePasses") = true →
      extractItems1 body = spreadElems ((getField body "gamePasses").getD .null)) ∧
    (body ≠ .null → asArr (getField body "data") = none → (∀ xs, body ≠ .arr xs) →
      truthyO (getField body "gamePasses") = false →
      truthyO (getField body "items") = true →
      extractItems1 body = spreadElems ((getField body "items").getD .null)) ∧
    (body ≠ .null → asArr (getField body "data") = none → (∀ xs, body ≠ .arr xs) →
      truthyO (getField body "gamePasses") = false →
      truthyO (getField body "items") = false →
      extractItems1 body = some []) ∧
    (extractItems1 .null = none) ∧
    (∀ xs, extractItems2 (.arr xs) = some []) ∧
    (body ≠ .null → (extractItems2 body).isSome = true) := by
  refine ⟨?_, ?_, ?_, ?_, ?_, ?_, ?_, ?_⟩
  · intro xs h
    cases body
    case obj fs => simp [extractItems1, h, asArr]
    all_goals simp [getField] at h
  · intro xs h
    subst h; simp [extractItems1, asArr, getField]
  · intro hnull hdata harr hgp
    cases body
    case null => exact absurd rfl hnull
    case arr xs => exact absurd rfl (harr xs)
    case obj fs => simp [extractItems1, hdata, hgp]
    all_goals simp [getField, truthyO] at hgp
  · intro hnull hdata harr hgp hit
    cases body
    case null => exact absurd rfl hnull
    case arr xs => exact absurd rfl (harr xs)
    case obj fs => simp [extractItems1, hdata, hgp, hit]
    all_goals simp [getField, truthyO] at hit
  · intro hnull hdata harr hgp hit
    cases body
    case null => exact absurd rfl hnull
    case arr xs => exact absurd rfl (harr xs)
    case obj fs => simp [extractItems1, hdata, hgp, hit]
    all_goals simp [extractItems1, getField, asArr, truthyO]
  · rfl
  · intro xs; simp [extractItems2, asArr, getField]
  · intro hnull
    cases body
    case null => exact absurd rfl hnull
    case obj fs =>
      simp only [extractItems2]
      split
      · simp
      · split
        · simp
        · split
          · simp
          · simp
    all_goals simp [extractItems2, getField, asArr]

/-- Counterexample to C3 as stated: a truthy non-iterable `gamePasses`
value makes the primary normalizer throw a TypeError instead of never
raising an error. -/
theorem normalizer_throws_on_nonlist_gamePasses :
    truthy (Json.num 5) = true ∧
      extractItems1 (Json.obj [("gamePasses", Json.num 5)]) = none :=
  ⟨by rfl, by rfl⟩

/-- Witness for C3 (amended) at a concrete body whose `items` field is
the only match. -/
theorem normalizer_priority_witness :
    extractItems1 (Json.obj [("items", Json.arr [Json.num 3])])
      = spreadElems ((getField (Json.obj [("items", Json.arr [Json.num 3])]) "items").getD .null) :=
  (normalizer_priority _).2.2.2.1 (fun h => by cases h)
    (by rfl) (fun xs h => by cases h) (by rfl) (by rfl)

/-- C2 (amended): for a 2xx inventory body, a `data` list decides
ownership by non-emptiness; otherwise the first truthy of `totalCount`,
`total`, `count` decides by the comparison with 0; when those fields are
all absent or falsy — including present-but-zero counts — or the body
itself is falsy, the verdict is unknown with the raw body returned. -/
theorem owns_interpretation_priority (uid gid : String) (body : Json)
    (hu : isNumericStr uid = true) (hg : isNumericStr gid = true) :
    (∀ xs, truthy body = true → getField body "data" = some (.arr xs) →
      ownsEndpoint uid gid (.ok body) = (.ownsData (decide (xs.length > 0)) body, 1)) ∧
    (∀ v, truthy body = true → asArr (getField body "data") = none →
      countField body = some v →
      ownsEndpoint uid gid (.ok body) = (.ownsCount (jsGtZero v) v body, 1)) ∧
    (truthy body = true → asArr (getField body "data") = none →
      countField body = none →
      ownsEndpoint uid gid (.ok body) = (.unknownVerdict body, 1)) ∧
    (truthy body = false →
      ownsEndpoint uid gid (.ok body) = (.unknownVerdict body, 1)) := by
  refine ⟨?_, ?_, ?_, ?_⟩
  · intro xs ht h
    simp [ownsEndpoint, hu, hg, interpretOwns, ht, h, asArr]
  · intro v ht hd hc
    simp [ownsEndpoint, hu, hg, interpretOwns, ht, hd, hc]
  · intro ht hd hc
    simp [ownsEndpoint, hu, hg, interpretOwns, ht, hd, hc]
  · intro ht
    simp [ownsEndpoint, hu, hg, interpretOwns, ht]

/-- Witness for C2 (amended) on a body with a positive `total` count. -/
theorem owns_interpretation_priority_witness :
    ownsEndpoint "1" "2" (.ok (Json.obj [("total", Json.num 3)]))
      = (.ownsCount (jsGtZero (Json.num 3)) (Json.num 3) (Json.obj [("total", Json.num 3)]), 1) :=
  (owns_interpretation_priority "1" "2" _ (by decide) (by decide)).2.1
    (Json.num 3) (by rfl) (by rfl) (by rfl)

/-- Counterexample to C2 as stated: `totalCount` present and equal to 0
is falsy, so the code answers the unknown verdict, not `owns = false`;
the two replies differ. -/
theorem owns_zero_totalCount_unknown :
    ownsEndpoint "1" "2" (.ok (Json.obj [("totalCount", Json.num 0)]))
      = (.unknownVerdict (Json.obj [("totalCount", Json.num 0)]), 1) ∧
    (OwnsReply.unknownVerdict (Json.obj [("totalCount", Json.num 0)])
      ≠ OwnsReply.ownsCount false (Json.num 0) (Json.obj [("totalCount", Json.num 0)])) :=
  ⟨by rfl, fun h => by cases h⟩

/-- C7: with valid ids, an upstream 404 yields the 200 reply with
`owns = false` after one call; any other non-2xx (hence thrown) status is
forwarded as a failure with the upstream status and its truthy body. -/
theorem owns_404_and_forwarding (uid gid : String) (d : Json) (m : String)
    (hu : isNumericStr uid = true) (hg : isNumericStr gid = true) :
    (ownsEndpoint uid gid (.httpErr 404 d m) = (.notFoundFalse, 1)) ∧
    (∀ s, s ≠ 404 → s ≠ 0 → truthy d = true →
      ownsEndpoint uid gid (.httpErr s d m) = (.failure s d, 1)) := by
  constructor
  · simp [ownsEndpoint, hu, hg]
  · intro s hs hs0 hd
    simp [ownsEndpoint, hu, hg, hs, failStatus, failBody, hs0, hd]

/-- Witness for C7: a 404 with an empty body becomes `owns = false`, and
a 403 with a body is forwarded as a 403 failure with that body. -/
theorem owns_404_and_forwarding_witness :
    ownsEndpoint "1" "2" (.httpErr 404 .null "not found") = (.notFoundFalse, 1) ∧
      ownsEndpoint "1" "2" (.httpErr 403 (.str "blocked") "forbidden")
        = (.failure 403 (.str "blocked"), 1) :=
  ⟨(owns_404_and_forwarding "1" "2" .null "not found" (by decide) (by decide)).1,
   (owns_404_and_forwarding "1" "2" (.str "blocked") "forbidden" (by decide) (by decide)).2
     403 (by decide) (by decide) (by rfl)⟩

/-- C8 (amended): the created-gamepasses and owns routes reject any
userId (or gamePassId) that fails the `^\d+$` regex with the 400 reply
and zero upstream calls; the check-ownership route instead rejects,
before any upstream call, exactly the requests with a missing or empty
parameter or one flagged by `isNaN` — its validation is weaker than the
regex. -/
theorem input_validation_behavior (userId gamePassId : String) :
    (∀ up, isNumericStr userId = false →
      createdGamepasses extractItems1 userId up = (.badInput, 0)) ∧
    (∀ up, (isNumericStr userId && isNumericStr gamePassId) = false →
      ownsEndpoint userId gamePassId up = (.badInput, 0)) ∧
    (∀ u g up', (jsIsNaN u || jsIsNaN g) = true → truthyS (some u) = true →
      truthyS (some g) = true →
      checkOwnership (some u) (some g) up' = (.notNumbers, 0)) ∧
    (∀ g up', checkOwnership none g up' = (.missingParams, 0)) := by
  refine ⟨?_, ?_, ?_, ?_⟩
  · intro up h; simp [createdGamepasses, h]
  · intro up h; simp [ownsEndpoint, h]
  · intro u g up' hnan hu hg
    simp [checkOwnership, hu, hg, hnan]
  · intro g up'; simp [checkOwnership, truthyS]

/-- Witness for C8 (amended): "abc" fails the regex on the
created-gamepasses route; a valid userId with the non-numeric
gamePassId "4x5" is rejected by the owns route; and check-ownership
rejects "abc" via `isNaN` - all with zero upstream calls. -/
theorem input_validation_behavior_witness :
    createdGamepasses extractItems1 "abc" (fun _ => .ok .null) = (.badInput, 0) ∧
      ownsEndpoint "123" "4x5" (.ok .null) = (.badInput, 0) ∧
      checkOwnership (some "abc") (some "5") (.resp 200 "true") = (.notNumbers, 0) :=
  ⟨(input_validation_behavior "abc" "5").1 _ (by decide),
   (input_validation_behavior "123" "4x5").2.1 _ (by decide),
   (input_validation_behavior "abc" "5").2.2.1 "abc" "5" _
     (by decide) (by decide) (by decide)⟩

/-- Counterexample to C8 as stated: "12.5" does not match `^\d+$`, yet
the check-ownership route accepts it (`isNaN("12.5")` is false) and
makes the upstream call instead of failing with 400. -/
theorem check_ownership_accepts_decimal :
    isNumericStr "12.5" = false ∧
      checkOwnership (some "12.5") (some "123") (.resp 200 "true")
        = (.okOwned (some 12) (some 123) true, 1) :=
  ⟨by decide, by rfl⟩

/-- C9 (amended): in the primary list-gamepasses route, a request whose
universeId passes validation fails with the 500 configuration error and
zero upstream calls whenever the API key is unset or empty; the
src/unnamed/part_001 variant has no such check and calls upstream
regardless. -/
theorem list_gamepasses_missing_key_config_error (universeId : Option String)
    (key : Option String) (up : FetchJ)
    (h1 : truthyS universeId = true)
    (h2 : jsIsNaN (universeId.getD "") = false)
    (h3 : truthyS key = false) :
    listGamepasses1 universeId key up = (.configError, 0) := by
  simp [listGamepasses1, h1, h2, h3]

/-- Witness for C9 (amended) with a valid universeId and no key. -/
theorem list_gamepasses_missing_key_config_error_witness :
    listGamepasses1 (some "77") none (.resp 200 "" (some (.obj []))) = (.configError, 0) :=
  list_gamepasses_missing_key_config_error (some "77") none _
    (by decide) (by decide) (by decide)

/-- Counterexample to C9 as stated: the src/unnamed/part_001
list-gamepasses variant, with no API key configured, still performs the
upstream call (one call made) and succeeds rather than failing with a
configuration error. -/
theorem variant_list_gamepasses_no_key_check :
    listGamepassesP1 (some "123") none (.resp 200 "ok" (some (.obj [])))
      = (.okData (some 123) (.obj []), 1) := by rfl

/-- C10 (amended): once a url is present and non-empty, every received
upstream response — whatever its status — is forwarded with client
status 200 as JSON-labelled body text; the 400 reply occurs exactly when
the url parameter is missing or empty, and the 500 reply exactly when
the fetch throws.  The upstream status is never forwarded. -/
theorem proxy_status_behavior (url : Option String) (up : FetchResult) :
    (∀ s t, truthyS url = true → up = .resp s t →
      proxyEndpoint url up = (.forwarded t, 1) ∧ proxyStatus (.forwarded t) = 200) ∧
    (truthyS url = false →
      proxyEndpoint url up = (.missingUrl, 0) ∧ proxyStatus .missingUrl = 400) ∧
    (∀ m, truthyS url = true → up = .thrown m →
      proxyEndpoint url up = (.fetchFailed m, 1) ∧ proxyStatus (.fetchFailed m) = 500) := by
  refine ⟨?_, ?_, ?_⟩
  · intro s t hu hresp
    subst hresp
    exact ⟨by simp [proxyEndpoint, hu], rfl⟩
  · intro hu
    exact ⟨by simp [proxyEndpoint, hu], rfl⟩
  · intro m hu hthrown
    subst hthrown
    exact ⟨by simp [proxyEndpoint, hu], rfl⟩

/-- Witness for C10 (amended): an upstream 503 is forwarded with client
status 200. -/
theorem proxy_status_behavior_witness :
    proxyEndpoint (some "http://u") (.resp 503 "busy") = (.forwarded "busy", 1) ∧
      proxyStatus (.forwarded "busy") = 200 :=
  (proxy_status_behavior (some "http://u") (.resp 503 "busy")).1 503 "busy"
    (by decide) rfl

/-- Counterexample to C10 as stated: an empty (present but falsy) url
parameter is also answered with the 400 reply, so 400 does not occur
only when the parameter is missing. -/
theorem proxy_empty_url_rejected :
    proxyEndpoint (some "") (.resp 200 "x") = (.missingUrl, 0) ∧
      (some "" : Option String).isSome = true :=
  ⟨by rfl, by rfl⟩
